import Mathlib

/-!
# Verification of the Tata Capital Digital Loan Sales Assistant core

Shallow embedding of the conversation stage machine, the shared-state merge
policy, the two background workers (document verification, sanction-letter
trigger) and the conversation driver of the repository, together with
theorems settling the specification claims about them.

Sources embedded:
- implementation/master_agent.py  (ConversationState, _determine_next_step,
  process_message)
- implementation/state_manager.py (_update_state_from_dict)
- implementation/document_verification.py (_has_unverified_documents,
  _process_documents, _analyze_document)
- implementation/sanction_letter_trigger.py (_should_generate_sanction_letter)

Modelling conventions:
- Python scalar values are modelled by the inductive type `PyVal`; Python
  truthiness by `PyVal.truthy`.  Python numbers (int and float alike) are
  modelled as rationals; the numeric literals of the source (0.5, 0.3, ...)
  are exact binary/decimal constants for which rational arithmetic agrees
  with IEEE double arithmetic.
- Python dicts are modelled as association lists with unique keys:
  `dget` is `dict.get` (first match), `dset` is item assignment
  (replace-in-place or append), `dupdate` is `dict.update`.
- Timestamps (`datetime.now().isoformat()`) are opaque strings threaded in
  as a `now` parameter; `datetime.fromisoformat` composed with `isoformat`
  is the identity on them.
- Code that can raise is modelled with `Except`/`Option`; a raised
  exception is an `Except.error` / `Option.none` result.
-/

set_option maxRecDepth 4000

namespace TataLoan

/-- A Python scalar value as it occurs in the conversation-state JSON:
`None`, a bool, a number (int or float, modelled as a rational), or a
string. -/
inductive PyVal where
  | none
  | bool (b : Bool)
  | num (q : ℚ)
  | str (s : String)
  deriving DecidableEq, Repr

/-- Python truthiness of a scalar value (`if x:`). -/
def PyVal.truthy : PyVal → Bool
  | .none => false
  | .bool b => b
  | .num q => q ≠ 0
  | .str s => s ≠ ""

/-- A Python dict with string keys, modelled as an association list whose
keys are kept unique by `dset`. -/
abbrev Dict (α : Type) := List (String × α)

/-- `d.get(key)`: the value at the first matching key, if any. -/
def dget {α : Type} : Dict α → String → Option α
  | [], _ => Option.none
  | (k, v) :: rest, key => if k = key then some v else dget rest key

/-- `d.get(key, dflt)`. -/
def dgetD {α : Type} (d : Dict α) (key : String) (dflt : α) : α :=
  (dget d key).getD dflt

/-- `d[key] = v`: replace the value at an existing key, else append. -/
def dset {α : Type} : Dict α → String → α → Dict α
  | [], key, v => [(key, v)]
  | (k, w) :: rest, key, v =>
      if k = key then (k, v) :: rest else (k, w) :: dset rest key v

/-- `d.update(upd)`: assign every item of `upd` into `d`, in order. -/
def dupdate {α : Type} (d upd : Dict α) : Dict α :=
  upd.foldl (fun acc kv => dset acc kv.1 kv.2) d

/-- `key in d`. -/
def dHasKey {α : Type} (d : Dict α) (k : String) : Bool :=
  (dget d k).isSome

/-- A dict whose values are themselves Python scalars. -/
abbrev DictV := Dict PyVal

/-- Conversation stage names: the values of the ConversationStage str-enum
of master_agent.py.  The enum subclasses str, so stage comparisons in the
source are string comparisons; a state's stage is therefore modelled as a
String, and constructing the enum from an unknown string raises. -/
def stageValues : List String :=
  ["greeting", "intent_capture", "sales_exploration", "verification",
   "underwriting", "documentation", "closure"]

/-- Decision names: the values of the Decision str-enum of master_agent.py. -/
def decisionValues : List String :=
  ["pending", "approved", "rejected", "need_more_info"]

/-- Message record appended by ConversationState.add_message (role, content
and timestamp) or by the document verifier (role and content only, hence
the optional timestamp). -/
structure Message where
  role : String
  content : String
  timestamp : Option String
  deriving DecidableEq, Repr

/-- Error record appended by ConversationState.add_error, or by the
process_message exception handler (which omits the agent key, modelled as
agent := none). -/
structure ErrorRec where
  etype : String
  message : String
  agent : Option String
  timestamp : String
  deriving DecidableEq, Repr

/-- In-memory conversation state of master_agent.py (class
ConversationState).  Fields follow __init__; stage and decision hold the
str-enum values; customer_id/name/phone and sanction_letter_id are None or
scalars, hence PyVal. -/
structure ConversationState where
  session_id : String
  start_time : String
  stage : String
  customer_id : PyVal
  customer_name : PyVal
  customer_phone : PyVal
  customer_details : DictV
  loan_details : DictV
  selected_offer : DictV
  verification_status : DictV
  underwriting_result : DictV
  decision : String
  sanction_letter_id : PyVal
  messages : List Message
  errors : List ErrorRec
  next_agent : PyVal
  api_retries : DictV
  document_uploads : Dict DictV
  gemini_history : List DictV
  recursion_depth : Nat
  deriving DecidableEq, Repr

/-- Serialized form of a conversation state: exactly the keys written by
ConversationState.to_dict (no gemini_history, no recursion_depth). -/
structure StateDict where
  session_id : String
  start_time : String
  stage : String
  customer_id : PyVal
  customer_name : PyVal
  customer_phone : PyVal
  customer_details : DictV
  loan_details : DictV
  selected_offer : DictV
  verification_status : DictV
  underwriting_result : DictV
  decision : String
  sanction_letter_id : PyVal
  messages : List Message
  errors : List ErrorRec
  next_agent : PyVal
  api_retries : DictV
  document_uploads : Dict DictV
  deriving DecidableEq, Repr

/-- ConversationState.to_dict of master_agent.py. -/
def ConversationState.to_dict (s : ConversationState) : StateDict :=
  { session_id := s.session_id
    start_time := s.start_time
    stage := s.stage
    customer_id := s.customer_id
    customer_name := s.customer_name
    customer_phone := s.customer_phone
    customer_details := s.customer_details
    loan_details := s.loan_details
    selected_offer := s.selected_offer
    verification_status := s.verification_status
    underwriting_result := s.underwriting_result
    decision := s.decision
    sanction_letter_id := s.sanction_letter_id
    messages := s.messages
    errors := s.errors
    next_agent := s.next_agent
    api_retries := s.api_retries
    document_uploads := s.document_uploads }

/-- ConversationState.from_dict of master_agent.py, on a complete
serialized record (the shape to_dict produces and the graph nodes pass
around).  Constructing ConversationStage or Decision from a string outside
the enum raises ValueError, modelled as Except.error; gemini_history is
read with default [] (to_dict writes no such key) and recursion_depth is
untouched, keeping the fresh-state value 0. -/
def ConversationState.from_dict (d : StateDict) : Except String ConversationState :=
  if d.stage ∈ stageValues then
    if d.decision ∈ decisionValues then
      Except.ok
        { session_id := d.session_id
          start_time := d.start_time
          stage := d.stage
          customer_id := d.customer_id
          customer_name := d.customer_name
          customer_phone := d.customer_phone
          customer_details := d.customer_details
          loan_details := d.loan_details
          selected_offer := d.selected_offer
          verification_status := d.verification_status
          underwriting_result := d.underwriting_result
          decision := d.decision
          sanction_letter_id := d.sanction_letter_id
          messages := d.messages
          errors := d.errors
          next_agent := d.next_agent
          api_retries := d.api_retries
          document_uploads := d.document_uploads
          gemini_history := []
          recursion_depth := 0 }
    else Except.error "is not a valid Decision"
  else Except.error "is not a valid ConversationStage"

/-- Stage dispatch of MasterAgent._determine_next_step of
master_agent.py: each branch sets the next stage and next_agent, with the
unexpected-stage fallback at the end. -/
def determineNextStepCore (s : ConversationState) : ConversationState :=
  if s.stage = "greeting" then
      if s.customer_id.truthy then
        { s with stage := "intent_capture", next_agent := .str "generate_response" }
      else
        { s with next_agent := .str "generate_response" }
    else if s.stage = "intent_capture" then
      { s with stage := "sales_exploration", next_agent := .str "sales_agent" }
    else if s.stage = "sales_exploration" then
      if (dgetD s.loan_details "amount" .none).truthy &&
         (dgetD s.loan_details "tenure" .none).truthy then
        { s with stage := "verification", next_agent := .str "verification_agent" }
      else
        { s with next_agent := .str "sales_agent" }
    else if s.stage = "verification" then
      if (dgetD s.verification_status "verified" (.bool false)).truthy then
        { s with stage := "underwriting", next_agent := .str "underwriting_agent" }
      else
        { s with next_agent := .str "verification_agent" }
    else if s.stage = "underwriting" then
      if s.decision = "approved" ∨ s.decision = "rejected" then
        if s.decision = "approved" then
          { s with stage := "documentation", next_agent := .str "sanction_letter_agent" }
        else
          { s with stage := "closure", next_agent := .str "generate_response" }
      else if s.decision = "need_more_info" then
        { s with next_agent := .str "underwriting_agent" }
      else
        { s with next_agent := .str "underwriting_agent" }
    else if s.stage = "documentation" then
      if s.sanction_letter_id.truthy then
        { s with stage := "closure", next_agent := .str "generate_response" }
      else
        { s with next_agent := .str "sanction_letter_agent" }
    else if s.stage = "closure" then
      { s with next_agent := .str "end" }
    else
      { s with next_agent := .str "generate_response" }

/-- MasterAgent._determine_next_step of master_agent.py on an in-memory
state object: the stage dispatch followed by the guard ensuring
next_agent is always set to a truthy value. -/
def determineNextStepObj (s : ConversationState) : ConversationState :=
  let s1 := determineNextStepCore s
  if !s1.next_agent.truthy then
    { s1 with next_agent := .str "generate_response" }
  else s1

/-- Dict a LangGraph node of master_agent.py returns: response, next_agent
and the serialized state. -/
structure NodeResult where
  response : String
  next_agent : PyVal
  state : StateDict
  deriving DecidableEq, Repr

/-- MasterAgent._determine_next_step on its documented input, a state
dict: the from_dict conversion runs before the try-block, so its
ValueError on an unknown stage or decision string propagates
(Except.error); the guarded logic never raises. -/
def determineNextStepNode (d : StateDict) : Except String NodeResult :=
  (ConversationState.from_dict d).map fun s0 =>
    let s := determineNextStepObj s0
    { response := "Determined next step", next_agent := s.next_agent,
      state := s.to_dict }

/-- Loop guard of MasterAgent.process_message (step 8): when
recursion_depth exceeds 25, force the stage back to greeting. -/
def recursionGuard (s : ConversationState) : ConversationState :=
  if 25 < s.recursion_depth then
    { s with stage := "greeting", next_agent := .str "generate_response" }
  else s

/-- Response dict returned by MasterAgent.process_message. -/
structure RespDict where
  response : String
  stage : String
  decision : String
  next_agent : PyVal
  state : StateDict
  deriving DecidableEq, Repr

/-- Exception handler of MasterAgent.process_message: append a
GraphExecutionError record to the state's error log (no agent key) and
return the apology response; the stage field reflects the state, the
decision field is the literal string "error", and the state snapshot is
to_dict of the state with only the error log changed. -/
def processMessageOnError (now : String) (s : ConversationState)
    (errMsg : String) : ConversationState × RespDict :=
  let s1 := { s with errors := s.errors ++
      [{ etype := "GraphExecutionError", message := errMsg,
         agent := Option.none, timestamp := now }] }
  (s1,
   { response := "Apologies, I encountered an internal issue while processing your request.",
     stage := s1.stage,
     decision := "error",
     next_agent := .str "generate_response",
     state := s1.to_dict })

/-- State object as state_manager.py sees it: the attributes
StateManager._update_state_from_dict reads or writes on the master agent's
in-memory ConversationState (which has messages, add_message and
document_uploads).  Fields the master state lacks until first assigned
(extracted_info, conversation_stage, income_proof_verification,
last_updated) are Option with none for a missing attribute;
documentation_status is Option (Option _): outer none models hasattr
false, inner none a None value. -/
structure MState where
  customer_details : DictV
  loan_details : DictV
  extracted_info : Option DictV
  messages : List Message
  conversation_stage : Option String
  decision : String
  verification_status : Option DictV
  underwriting_result : DictV
  documentation_status : Option (Option DictV)
  sanction_letter_id : PyVal
  document_uploads : Option (Dict DictV)
  income_proof_verification : Option DictV
  last_updated : Option String
  deriving DecidableEq, Repr

/-- Snapshot of the shared conversation-state JSON file, as loaded by the
state manager and the two background workers; every top-level key may be
absent (none). -/
structure SnapDict where
  customer_details : Option DictV
  loan_details : Option DictV
  extracted_info : Option DictV
  messages : Option (List Message)
  conversation_stage : Option String
  decision : Option String
  verification_status : Option DictV
  underwriting_result : Option DictV
  documentation_status : Option DictV
  sanction_letter_id : Option PyVal
  document_uploads : Option (Dict DictV)
  income_proof_verification : Option DictV
  last_updated : Option String
  deriving DecidableEq, Repr

/-- Section of StateManager._update_state_from_dict: special handling for
document uploads — merge per key, snapshot entries overriding. -/
def mergeDocumentUploads (s : MState) (d : SnapDict) : MState :=
  match d.document_uploads with
  | Option.none => s
  | some du =>
      let base := s.document_uploads.getD []
      let merged := du.foldl (fun acc kv => dset acc kv.1 kv.2) base
      { s with document_uploads := some merged }

/-- Section of StateManager._update_state_from_dict: special handling for
income proof verification — store it and recompute the derived
verification_status flags. -/
def mergeIncomeProofVerification (s : MState) (d : SnapDict) : MState :=
  match d.income_proof_verification with
  | Option.none => s
  | some ipv =>
      let s := { s with income_proof_verification := some ipv }
      let vs := s.verification_status.getD []
      let vs := dset vs "income_proof_verified"
          (.bool (dgetD ipv "status" .none == .str "verified"))
      let vs := dset vs "income_proof_confidence"
          (dgetD ipv "confidence_score" (.num 0))
      { s with verification_status := some vs }

/-- Section of StateManager._update_state_from_dict: replace
customer_details when present in the snapshot. -/
def mergeCustomerDetails (s : MState) (d : SnapDict) : MState :=
  match d.customer_details with
  | Option.none => s
  | some cd => { s with customer_details := cd }

/-- Section of StateManager._update_state_from_dict: replace loan_details
when present in the snapshot. -/
def mergeLoanDetails (s : MState) (d : SnapDict) : MState :=
  match d.loan_details with
  | Option.none => s
  | some ld => { s with loan_details := ld }

/-- Section of StateManager._update_state_from_dict: replace
extracted_info when present in the snapshot. -/
def mergeExtractedInfo (s : MState) (d : SnapDict) : MState :=
  match d.extracted_info with
  | Option.none => s
  | some ei => { s with extracted_info := some ei }

/-- Section of StateManager._update_state_from_dict: special handling for
messages — when the snapshot has more entries than the current state,
append only the new ones through add_message (fresh timestamp now);
otherwise assign the snapshot's list wholesale. -/
def mergeMessages (now : String) (s : MState) (d : SnapDict) : MState :=
  match d.messages with
  | Option.none => s
  | some ms =>
      let msgCount := s.messages.length
      if msgCount < ms.length then
        { s with messages := s.messages ++
            ((ms.drop msgCount).map fun m =>
              { role := m.role, content := m.content, timestamp := some now }) }
      else
        { s with messages := ms }

/-- Section of StateManager._update_state_from_dict: replace
conversation_stage when present in the snapshot. -/
def mergeConversationStage (s : MState) (d : SnapDict) : MState :=
  match d.conversation_stage with
  | Option.none => s
  | some st => { s with conversation_stage := some st }

/-- Section of StateManager._update_state_from_dict: replace decision when
present in the snapshot. -/
def mergeDecision (s : MState) (d : SnapDict) : MState :=
  match d.decision with
  | Option.none => s
  | some dec => { s with decision := dec }

/-- Section of StateManager._update_state_from_dict: replace
verification_status wholesale when present in the snapshot. -/
def mergeVerificationStatus (s : MState) (d : SnapDict) : MState :=
  match d.verification_status with
  | Option.none => s
  | some vs => { s with verification_status := some vs }

/-- Section of StateManager._update_state_from_dict: replace
underwriting_result when present in the snapshot. -/
def mergeUnderwritingResult (s : MState) (d : SnapDict) : MState :=
  match d.underwriting_result with
  | Option.none => s
  | some uw => { s with underwriting_result := uw }

/-- Section of StateManager._update_state_from_dict: replace
documentation_status when present in the snapshot. -/
def mergeDocumentationStatus (s : MState) (d : SnapDict) : MState :=
  match d.documentation_status with
  | Option.none => s
  | some ds => { s with documentation_status := some (some ds) }

/-- Section of StateManager._update_state_from_dict: propagate
sanction_letter_id and, when a documentation_status attribute exists, flip
the derived documentation-complete flag. -/
def mergeSanctionLetterId (s : MState) (d : SnapDict) : MState :=
  match d.sanction_letter_id with
  | Option.none => s
  | some sl =>
      let s := { s with sanction_letter_id := sl }
      match s.documentation_status with
      | Option.none => s
      | some dsOpt =>
          let ds := dsOpt.getD []
          let ds := dset ds "status" (.str "completed")
          let ds := dset ds "document_path" sl
          { s with documentation_status := some (some ds) }

/-- Section of StateManager._update_state_from_dict: record the snapshot's
last_updated timestamp when present. -/
def mergeLastUpdated (s : MState) (d : SnapDict) : MState :=
  match d.last_updated with
  | Option.none => s
  | some t => { s with last_updated := some t }

/-- StateManager._update_state_from_dict of state_manager.py: merge a
freshly loaded snapshot into the in-memory state object, section by
section in source order.  The in-memory state is the master agent's
ConversationState, which has add_message, so appended messages get fresh
timestamps (the now parameter). -/
def updateStateFromDict (now : String) (s : MState) (d : SnapDict) : MState :=
  let s := mergeDocumentUploads s d
  let s := mergeIncomeProofVerification s d
  let s := mergeCustomerDetails s d
  let s := mergeLoanDetails s d
  let s := mergeExtractedInfo s d
  let s := mergeMessages now s d
  let s := mergeConversationStage s d
  let s := mergeDecision s d
  let s := mergeVerificationStatus s d
  let s := mergeUnderwritingResult s d
  let s := mergeDocumentationStatus s d
  let s := mergeSanctionLetterId s d
  mergeLastUpdated s d

/-- Document types recognized by DocumentVerificationAgent. -/
def documentTypes : List String :=
  ["salary_slip", "bank_statement", "income_tax_return", "form_16",
   "business_financial_statement"]

/-- Per-document-type condition shared by _has_unverified_documents and
the _process_documents loop: the type is marked uploaded but not
verified in customer_details. -/
def docReady (cd : DictV) (t : String) : Bool :=
  (dgetD cd (t ++ "_uploaded") (.bool false)).truthy &&
  !(dgetD cd (t ++ "_verified") (.bool false)).truthy

/-- DocumentVerificationAgent._has_unverified_documents: some document
type is marked uploaded but not verified in customer_details. -/
def hasUnverifiedDocuments (d : SnapDict) : Bool :=
  match d.customer_details with
  | Option.none => false
  | some cd => documentTypes.any (docReady cd)

/-- Accumulator of the per-document loop of
DocumentVerificationAgent._process_documents: the verification_results
dict plus running confidence sum, processed count and modified flag. -/
structure ProcAcc where
  results : DictV
  overall : ℚ
  processed : Nat
  modified : Bool
  deriving DecidableEq, Repr

/-- Body of the per-document-type loop of _process_documents: a type that
is uploaded but not verified is scored (the external random scoring is the
score parameter), marked verified iff the score is at least 0.5, with
status approved or rejected accordingly. -/
def processDocStep (score : String → ℚ) (now : String) (cd : DictV)
    (acc : ProcAcc) (t : String) : ProcAcc :=
  if docReady cd t then
    let c := score t
    let r := acc.results
    let r := dset r (t ++ "_verified") (.bool (1/2 ≤ c))
    let r := dset r (t ++ "_confidence") (.num c)
    let r := dset r (t ++ "_verification_time") (.str now)
    let r := dset r (t ++ "_status")
        (.str (if 1/2 ≤ c then "approved" else "rejected"))
    { results := r, overall := acc.overall + c,
      processed := acc.processed + 1, modified := true }
  else acc

/-- Per-document loop of DocumentVerificationAgent._process_documents:
fold the per-type step over the five document types starting from the
empty accumulator. -/
def processResults (score : String → ℚ) (now : String) (cd : DictV) : ProcAcc :=
  documentTypes.foldl (processDocStep score now cd)
    { results := [], overall := 0, processed := 0, modified := false }

/-- DocumentVerificationAgent._process_documents: score every uploaded,
unverified document type (the loop is processResults), aggregate
income_proof_confidence as the mean over processed types, append an
assistant message summarizing the outcome (fmt models the two-decimal
float formatting), and update customer_details with the results.  Returns
the updated snapshot and the modified flag. -/
def processDocuments (score : String → ℚ) (fmt : ℚ → String) (now : String)
    (d : SnapDict) : SnapDict × Bool :=
  let cd := d.customer_details.getD []
  let acc := processResults score now cd
  if 0 < acc.processed then
    let overall := acc.overall / (acc.processed : ℚ)
    let r := acc.results
    let r := dset r "income_proof_confidence" (.num overall)
    let r := dset r "income_proof" (.bool (1/2 ≤ overall))
    let r := dset r "income_proof_verification_time" (.str now)
    let msgs := d.messages.getD []
    let msgs := msgs ++
      [if 1/2 ≤ overall then
        { role := "assistant",
          content := "Your income proof documents have been verified successfully with an overall confidence score of " ++ fmt overall ++ ".",
          timestamp := Option.none }
      else
        { role := "assistant",
          content := "Your income proof documents could not be verified (confidence score: " ++ fmt overall ++ "). Please upload clearer documents or different proofs of income.",
          timestamp := Option.none }]
    ({ d with customer_details := some (dupdate cd r), messages := some msgs },
     acc.modified)
  else
    ({ d with customer_details := some (dupdate cd acc.results) }, acc.modified)

/-- DocumentVerificationAgent._analyze_document, given the two random
draws of the simulation: the confidence is base plus modifier clamped to
the interval from 0 to 1. -/
def analyzeDocument (base modifier : ℚ) : ℚ :=
  min (max (base + modifier) 0) 1

/-- Customer fields SanctionLetterTrigger requires. -/
def requiredCustomerFields : List String :=
  ["customer_id", "name", "phone", "address", "pan",
   "account_number", "ifsc_code", "bank_name"]

/-- Loan fields SanctionLetterTrigger requires. -/
def requiredLoanFields : List String :=
  ["amount", "tenure", "purpose", "interest_rate", "emi"]

/-- Numeric value of a Python scalar in an order comparison with a float
literal; bools compare as 0 or 1, while comparing None or a string raises
TypeError, modelled as none. -/
def PyVal.toNum : PyVal → Option ℚ
  | .bool b => some (if b then 1 else 0)
  | .num q => some q
  | _ => Option.none

/-- SanctionLetterTrigger._should_generate_sanction_letter: the guard
chain in source order (existing letter, verified flag, income-proof flag
and confidence with short-circuit, the redundant second confidence check,
underwriting decision, required customer fields, required loan fields).
The result is none when the confidence comparison raises on a non-numeric
value. -/
def shouldGenerateSanctionLetter (d : SnapDict) : Option Bool :=
  if ((d.sanction_letter_id).getD .none).truthy then some false
  else
    let vs := d.verification_status.getD []
    if !(dgetD vs "verified" (.bool false)).truthy then some false
    else if !(dgetD vs "income_proof_verified" (.bool false)).truthy then some false
    else
      match (dgetD vs "income_proof_confidence" (.num 0)).toNum with
      | Option.none => Option.none
      | some c =>
          if c < 1/2 then some false
          else if c < 1/2 then some false
          else
            let uw := d.underwriting_result.getD []
            if !(dgetD uw "decision" .none == .str "approved" ||
                 dgetD uw "decision" .none == .str "conditionally_approved") then
              some false
            else
              let cd := d.customer_details.getD []
              if requiredCustomerFields.any (fun f => !(dgetD cd f .none).truthy) then
                some false
              else
                let ld := d.loan_details.getD []
                if requiredLoanFields.any (fun f => !(dgetD ld f .none).truthy) then
                  some false
                else some true

/-! ## Concrete states used by witnesses and counterexamples -/

/-- A fresh-looking conversation state with valid enum fields, used as a
base for concrete witnesses. -/
def sampleState : ConversationState :=
  { session_id := "session-1", start_time := "2025-01-01T00:00:00",
    stage := "greeting", customer_id := .none, customer_name := .none,
    customer_phone := .none, customer_details := [], loan_details := [],
    selected_offer := [], verification_status := [], underwriting_result := [],
    decision := "pending", sanction_letter_id := .none, messages := [],
    errors := [], next_agent := .none, api_retries := [],
    document_uploads := [], gemini_history := [], recursion_depth := 0 }

/-- Sample state sitting at the intent_capture stage. -/
def intentState : ConversationState :=
  { sampleState with stage := "intent_capture" }

/-- Sample state whose stage holds a string outside the seven defined
stage names. -/
def bogusState : ConversationState :=
  { sampleState with stage := "definitely_not_a_stage" }

/-- Serialized state whose stage string is outside the seven defined stage
names. -/
def bogusDict : StateDict :=
  { sampleState.to_dict with stage := "definitely_not_a_stage" }

/-- Snapshot meeting every sanction-trigger condition. -/
def triggerReady : SnapDict :=
  { customer_details := some
      [("customer_id", .str "CUST001"), ("name", .str "Asha Rao"),
       ("phone", .str "9876543210"), ("address", .str "12 MG Road"),
       ("pan", .str "ABCDE1234F"), ("account_number", .str "000111222"),
       ("ifsc_code", .str "TATA0000001"), ("bank_name", .str "Tata Bank")],
    loan_details := some
      [("amount", .num 500000), ("tenure", .num 36),
       ("purpose", .str "home renovation"), ("interest_rate", .num (21/2)),
       ("emi", .num 16000)],
    extracted_info := Option.none, messages := Option.none,
    conversation_stage := Option.none, decision := Option.none,
    verification_status := some
      [("verified", .bool true), ("income_proof_verified", .bool true),
       ("income_proof_confidence", .num (7/10))],
    underwriting_result := some [("decision", .str "approved")],
    documentation_status := Option.none, sanction_letter_id := Option.none,
    document_uploads := Option.none, income_proof_verification := Option.none,
    last_updated := Option.none }

/-- In-memory state holding two messages, for the merge theorems. -/
def mergeS : MState :=
  { customer_details := [], loan_details := [], extracted_info := Option.none,
    messages :=
      [{ role := "user", content := "hi", timestamp := some "t1" },
       { role := "assistant", content := "hello", timestamp := some "t2" }],
    conversation_stage := some "greeting", decision := "pending",
    verification_status := Option.none, underwriting_result := [],
    documentation_status := Option.none, sanction_letter_id := .none,
    document_uploads := some [], income_proof_verification := Option.none,
    last_updated := Option.none }

/-- Snapshot with a single (older) message: merging it truncates. -/
def mergeShort : SnapDict :=
  { customer_details := Option.none, loan_details := Option.none,
    extracted_info := Option.none,
    messages := some [{ role := "user", content := "hi", timestamp := some "t1" }],
    conversation_stage := Option.none, decision := Option.none,
    verification_status := Option.none, underwriting_result := Option.none,
    documentation_status := Option.none, sanction_letter_id := Option.none,
    document_uploads := Option.none, income_proof_verification := Option.none,
    last_updated := Option.none }

/-- Snapshot with three messages and a new document upload. -/
def mergeLong : SnapDict :=
  { mergeShort with
    messages := some
      [{ role := "user", content := "hi", timestamp := some "t1" },
       { role := "assistant", content := "hello", timestamp := some "t2" },
       { role := "assistant", content := "verified your documents", timestamp := Option.none }],
    document_uploads := some [("doc-1", [("type", .str "salary_slip")])] }

/-- Snapshot with one uploaded, unverified salary slip. -/
def uploadedSnap : SnapDict :=
  { mergeShort with
    messages := Option.none,
    customer_details := some [("salary_slip_uploaded", .bool true)] }

/-- Snapshot whose only uploaded document is already verified. -/
def verifiedSnap : SnapDict :=
  { uploadedSnap with
    customer_details := some
      [("salary_slip_uploaded", .bool true), ("salary_slip_verified", .bool true),
       ("salary_slip_confidence", .num (9/10))] }

/-- Scoring function that always returns 0.3. -/
def lowScore : String → ℚ := fun _ => 3/10

/-- Scoring function that always returns exactly 0.5. -/
def halfScore : String → ℚ := fun _ => 1/2

/-- Two-decimal formatting stand-in used by concrete runs. -/
def fmt2 : ℚ → String := fun _ => "0.00"

/-! ## Dictionary lemmas -/

theorem dget_dset_self {α : Type} (d : Dict α) (k : String) (v : α) :
    dget (dset d k v) k = some v := by
  induction d with
  | nil => simp [dset, dget]
  | cons hd tl ih =>
      by_cases h : hd.1 = k
      · simp [dset, dget, h]
      · simp [dset, dget, h, ih]

theorem dget_dset_ne {α : Type} (d : Dict α) (k k' : String) (v : α)
    (h : k' ≠ k) : dget (dset d k v) k' = dget d k' := by
  have hks : k ≠ k' := Ne.symm h
  induction d with
  | nil => simp [dset, dget, hks]
  | cons hd tl ih =>
      obtain ⟨a, b⟩ := hd
      by_cases hk : a = k
      · subst hk
        simp [dset, dget, hks]
      · by_cases hk' : a = k'
        · simp [dset, dget, hk, hk', h]
        · simp [dset, dget, hk, hk', ih]

/-- Keys written by `dset` are the old keys plus possibly `k`. -/
theorem dget_dset_isSome {α : Type} (d : Dict α) (k k' : String) (v : α) :
    (dget (dset d k v) k').isSome →
      (dget d k').isSome ∨ k' = k := by
  intro h
  by_cases hk : k' = k
  · exact Or.inr hk
  · rw [dget_dset_ne d k k' v hk] at h
    exact Or.inl h

/-- If no key of `upd` equals `k`, updating leaves the entry at `k`
unchanged. -/
theorem dget_dupdate_notmem {α : Type} (d upd : Dict α) (k : String)
    (h : ∀ kv ∈ upd, kv.1 ≠ k) : dget (dupdate d upd) k = dget d k := by
  induction upd generalizing d with
  | nil => rfl
  | cons hd tl ih =>
      have hhd : hd.1 ≠ k := h hd (List.mem_cons_self hd tl)
      have htl : ∀ kv ∈ tl, kv.1 ≠ k := fun kv hkv => h kv (List.mem_cons_of_mem hd hkv)
      show dget (dupdate (dset d hd.1 hd.2) tl) k = dget d k
      rw [ih (dset d hd.1 hd.2) htl, dget_dset_ne d hd.1 k hd.2 (fun hh => hhd hh.symm)]

/-- Every key of `dset d k v` is a key of `d` or equals `k`. -/
theorem mem_keys_dset {α : Type} (d : Dict α) (k k' : String) (v : α) :
    k' ∈ (dset d k v).map Prod.fst → k' ∈ d.map Prod.fst ∨ k' = k := by
  induction d with
  | nil =>
      intro h
      rw [show dset ([] : Dict α) k v = [(k, v)] from rfl] at h
      rcases List.mem_cons.mp h with he | he
      · exact Or.inr he
      · simp at he
  | cons hd tl ih =>
      obtain ⟨a, b⟩ := hd
      intro h
      by_cases hk : a = k
      · rw [show dset ((a, b) :: tl) k v = (a, v) :: tl from by simp [dset, hk]] at h
        rw [List.map_cons] at h
        rcases List.mem_cons.mp h with he | he
        · exact Or.inl (by rw [List.map_cons]; exact List.mem_cons.mpr (Or.inl he))
        · exact Or.inl (by rw [List.map_cons]; exact List.mem_cons.mpr (Or.inr he))
      · rw [show dset ((a, b) :: tl) k v = (a, b) :: dset tl k v from by simp [dset, hk]] at h
        rw [List.map_cons] at h
        rcases List.mem_cons.mp h with he | he
        · exact Or.inl (by rw [List.map_cons]; exact List.mem_cons.mpr (Or.inl he))
        · rcases ih he with hin | heq
          · exact Or.inl (by rw [List.map_cons]; exact List.mem_cons.mpr (Or.inr hin))
          · exact Or.inr heq

/-- If `upd` has no duplicate keys and maps `k` to `v`, updating installs
exactly `v` at `k`. -/
theorem dget_dupdate_of_dget {α : Type} (d upd : Dict α) (k : String) (v : α)
    (hnodup : (upd.map Prod.fst).Nodup) (hv : dget upd k = some v) :
    dget (dupdate d upd) k = some v := by
  induction upd generalizing d with
  | nil => simp [dget] at hv
  | cons hd tl ih =>
      rw [List.map_cons] at hnodup
      have h1 := List.nodup_cons.mp hnodup
      by_cases hk : hd.1 = k
      · have hvv : v = hd.2 := by
          simp [dget, hk] at hv
          exact hv.symm
        subst hvv
        subst hk
        show dget (dupdate (dset d hd.1 hd.2) tl) hd.1 = some hd.2
        rw [dget_dupdate_notmem _ tl hd.1
            (fun kv hkv he => h1.1 (he ▸ List.mem_map_of_mem Prod.fst hkv)),
          dget_dset_self]
      · have hv' : dget tl k = some v := by
          simpa [dget, hk] using hv
        show dget (dupdate (dset d hd.1 hd.2) tl) k = some v
        exact ih (dset d hd.1 hd.2) h1.2 hv'

/-- `dset` preserves key uniqueness. -/
theorem dset_nodup_keys {α : Type} (d : Dict α) (k : String) (v : α)
    (h : (d.map Prod.fst).Nodup) : ((dset d k v).map Prod.fst).Nodup := by
  induction d with
  | nil => simp [dset]
  | cons hd tl ih =>
      obtain ⟨a, b⟩ := hd
      rw [List.map_cons] at h
      have h1 := List.nodup_cons.mp h
      by_cases hk : a = k
      · subst hk
        show ((dset ((a, b) :: tl) a v).map Prod.fst).Nodup
        rw [show dset ((a, b) :: tl) a v = (a, v) :: tl from by simp [dset]]
        rw [List.map_cons]
        exact List.nodup_cons.mpr ⟨h1.1, h1.2⟩
      · have htl := ih h1.2
        have hmem : a ∉ (dset tl k v).map Prod.fst := by
          intro hm
          rcases mem_keys_dset tl k a v hm with hin | he
          · exact h1.1 hin
          · exact hk he
        rw [show dset ((a, b) :: tl) k v = (a, b) :: dset tl k v from by simp [dset, hk]]
        rw [List.map_cons]
        exact List.nodup_cons.mpr ⟨hmem, htl⟩


/-! ## Stage-machine lemmas -/

/-- Every branch of the stage dispatch sets next_agent to a nonempty
string, so the trailing guard never fires. -/
theorem determineNextStepCore_next_agent_truthy (s : ConversationState) :
    ((determineNextStepCore s).next_agent).truthy = true := by
  unfold determineNextStepCore
  split_ifs <;> rfl

/-- The next_agent guard of _determine_next_step is the identity, since
the dispatch always sets a truthy next_agent. -/
theorem determineNextStepObj_eq_core (s : ConversationState) :
    determineNextStepObj s = determineNextStepCore s := by
  unfold determineNextStepObj
  simp [determineNextStepCore_next_agent_truthy]

/-- The stage dispatch never touches recursion_depth. -/
theorem determineNextStepCore_recursion_depth (s : ConversationState) :
    (determineNextStepCore s).recursion_depth = s.recursion_depth := by
  unfold determineNextStepCore
  split_ifs <;> rfl

/-! ## Claim theorems -/

/-- C10: ConversationState serialization round-trips.  For any state whose
stage and decision hold enum values (which Python's enum typing
guarantees for real states), from_dict of to_dict succeeds and restores
every serialized field exactly; the only differences are the
unserialized gemini_history and recursion_depth, reset to their defaults
[] and 0; consequently to_dict of the round-tripped state equals the
original dictionary. -/
theorem state_roundtrip (s : ConversationState)
    (hstage : s.stage ∈ stageValues) (hdec : s.decision ∈ decisionValues) :
    ConversationState.from_dict s.to_dict =
      Except.ok { s with gemini_history := [], recursion_depth := 0 } ∧
    ConversationState.to_dict
        { s with gemini_history := ([] : List DictV), recursion_depth := 0 } =
      s.to_dict := by
  constructor
  · simp [ConversationState.from_dict, ConversationState.to_dict, hstage, hdec]
  · rfl

/-- Witness for state_roundtrip at a concrete valid state. -/
theorem state_roundtrip_witness :
    ConversationState.from_dict sampleState.to_dict =
      Except.ok { sampleState with gemini_history := [], recursion_depth := 0 } ∧
    ConversationState.to_dict
        { sampleState with gemini_history := ([] : List DictV), recursion_depth := 0 } =
      sampleState.to_dict :=
  state_roundtrip sampleState (by decide) (by decide)

/-- C3 (amended): on an internal exception, process_message still returns
a well-formed response dict whose response is the generic apology and
whose stage mirrors the state; the in-memory state is changed only by the
appended GraphExecutionError record, so the state snapshot in the result
keeps the last known-good decision and stage; the top-level decision
field, however, is the literal string "error" rather than the last
known-good decision. -/
theorem process_message_error_shape (now : String) (s : ConversationState)
    (msg : String) :
    (processMessageOnError now s msg).2.response =
      "Apologies, I encountered an internal issue while processing your request." ∧
    (processMessageOnError now s msg).2.stage = s.stage ∧
    (processMessageOnError now s msg).2.decision = "error" ∧
    (processMessageOnError now s msg).2.state.decision = s.decision ∧
    (processMessageOnError now s msg).2.state.stage = s.stage ∧
    (processMessageOnError now s msg).1 =
      { s with errors := s.errors ++
          [{ etype := "GraphExecutionError", message := msg,
             agent := Option.none, timestamp := now }] } :=
  ⟨rfl, rfl, rfl, rfl, rfl, rfl⟩

/-- C3 counterexample: with the state's last known-good decision
"pending", the decision field of the dict returned on internal error is
"error", not the last known-good value. -/
theorem process_message_error_decision_cex :
    (processMessageOnError "t9" sampleState "boom").2.decision ≠
      sampleState.decision := by
  decide

/-- C2: the loop-guard counter is dead code.  A stage-machine pass never
changes recursion_depth (the source initializes it to 0 and compares it
against 25 but never increments it), so even after 30 consecutive
stage-machine passes within one message-processing call the counter still
reads 0 and the guard that would reset the stage to greeting does not
fire. -/
theorem recursion_counter_never_incremented :
    (∀ s : ConversationState,
        (determineNextStepObj s).recursion_depth = s.recursion_depth) ∧
    (Nat.iterate determineNextStepObj 30 intentState).recursion_depth = 0 ∧
    recursionGuard (Nat.iterate determineNextStepObj 30 intentState) =
      Nat.iterate determineNextStepObj 30 intentState := by
  refine ⟨?_, ?_, ?_⟩
  · intro s
    rw [determineNextStepObj_eq_core]
    exact determineNextStepCore_recursion_depth s
  · rfl
  · rfl

/-- C6 (amended): when _determine_next_step processes an in-memory state
object whose stage holds any string outside the seven defined names, it
takes the default branch: next_agent becomes generate_response, the stage
is unchanged and nothing is raised. -/
theorem unknown_stage_safe_fallback (s : ConversationState)
    (h : s.stage ∉ stageValues) :
    determineNextStepObj s = { s with next_agent := .str "generate_response" } := by
  simp only [stageValues, List.mem_cons, List.not_mem_nil, or_false] at h
  push_neg at h
  obtain ⟨h1, h2, h3, h4, h5, h6, h7⟩ := h
  rw [determineNextStepObj_eq_core]
  unfold determineNextStepCore
  rw [if_neg h1, if_neg h2, if_neg h3, if_neg h4, if_neg h5, if_neg h6, if_neg h7]

/-- Witness for unknown_stage_safe_fallback at a concrete state. -/
theorem unknown_stage_safe_fallback_witness :
    determineNextStepObj bogusState =
      { bogusState with next_agent := .str "generate_response" } :=
  unknown_stage_safe_fallback bogusState (by decide)

/-- C6 counterexample: on the documented dict input, an unknown stage
string makes the ConversationStage construction inside from_dict raise
ValueError before the guarded logic of _determine_next_step runs, so
determining the next step propagates an exception instead of returning
the safe fallback. -/
theorem unknown_stage_dict_raises :
    determineNextStepNode bogusDict =
      Except.error "is not a valid ConversationStage" := rfl

/-- C4: the stage-transition function follows the specified table.  In
greeting the stage advances to intent_capture exactly when the customer is
identified; intent_capture always advances to sales_exploration invoking
the sales worker; sales_exploration advances to verification (invoking the
verification worker) exactly when both loan amount and tenure are truthy,
otherwise staying with the sales worker; verification advances to
underwriting exactly when verification_status.verified is truthy;
underwriting goes to documentation (invoking the sanction-letter worker)
exactly when the decision is approved, to closure when rejected, and stays
with the underwriting worker on need_more_info; documentation goes to
closure exactly when sanction_letter_id is set; closure is terminal. -/
theorem stage_transition_table (s : ConversationState) :
    (s.stage = "greeting" →
      ((determineNextStepObj s).stage = "intent_capture" ↔ s.customer_id.truthy = true) ∧
      (s.customer_id.truthy = false → (determineNextStepObj s).stage = "greeting") ∧
      (determineNextStepObj s).next_agent = .str "generate_response") ∧
    (s.stage = "intent_capture" →
      (determineNextStepObj s).stage = "sales_exploration" ∧
      (determineNextStepObj s).next_agent = .str "sales_agent") ∧
    (s.stage = "sales_exploration" →
      ((determineNextStepObj s).stage = "verification" ↔
        ((dgetD s.loan_details "amount" .none).truthy &&
         (dgetD s.loan_details "tenure" .none).truthy) = true) ∧
      (((dgetD s.loan_details "amount" .none).truthy &&
        (dgetD s.loan_details "tenure" .none).truthy) = true →
        (determineNextStepObj s).next_agent = .str "verification_agent") ∧
      (((dgetD s.loan_details "amount" .none).truthy &&
        (dgetD s.loan_details "tenure" .none).truthy) = false →
        (determineNextStepObj s).stage = "sales_exploration" ∧
        (determineNextStepObj s).next_agent = .str "sales_agent")) ∧
    (s.stage = "verification" →
      ((determineNextStepObj s).stage = "underwriting" ↔
        (dgetD s.verification_status "verified" (.bool false)).truthy = true) ∧
      ((dgetD s.verification_status "verified" (.bool false)).truthy = true →
        (determineNextStepObj s).next_agent = .str "underwriting_agent") ∧
      ((dgetD s.verification_status "verified" (.bool false)).truthy = false →
        (determineNextStepObj s).stage = "verification" ∧
        (determineNextStepObj s).next_agent = .str "verification_agent")) ∧
    (s.stage = "underwriting" →
      ((determineNextStepObj s).stage = "documentation" ↔ s.decision = "approved") ∧
      (s.decision = "approved" →
        (determineNextStepObj s).next_agent = .str "sanction_letter_agent") ∧
      (s.decision = "rejected" → (determineNextStepObj s).stage = "closure") ∧
      (s.decision = "need_more_info" →
        (determineNextStepObj s).stage = "underwriting" ∧
        (determineNextStepObj s).next_agent = .str "underwriting_agent")) ∧
    (s.stage = "documentation" →
      ((determineNextStepObj s).stage = "closure" ↔ s.sanction_letter_id.truthy = true) ∧
      (s.sanction_letter_id.truthy = false →
        (determineNextStepObj s).stage = "documentation" ∧
        (determineNextStepObj s).next_agent = .str "sanction_letter_agent")) ∧
    (s.stage = "closure" →
      (determineNextStepObj s).stage = "closure" ∧
      (determineNextStepObj s).next_agent = .str "end") := by
  simp only [determineNextStepObj_eq_core]
  unfold determineNextStepCore
  refine ⟨?_, ?_, ?_, ?_, ?_, ?_, ?_⟩ <;> intro hst <;> rw [hst]
  · cases hc : s.customer_id.truthy <;> simp [hc]
  · simp
  · cases hc : ((dgetD s.loan_details "amount" PyVal.none).truthy &&
        (dgetD s.loan_details "tenure" PyVal.none).truthy) <;> simp [hc]
  · cases hc : (dgetD s.verification_status "verified" (PyVal.bool false)).truthy <;>
      simp [hc]
  · by_cases hA : s.decision = "approved" <;>
      by_cases hR : s.decision = "rejected" <;>
        by_cases hN : s.decision = "need_more_info" <;>
          simp_all
  · cases hc : s.sanction_letter_id.truthy <;> simp [hc]
  · simp

/-- Witness for stage_transition_table: from intent_capture the machine
always advances to sales_exploration invoking the sales worker. -/
theorem stage_transition_table_witness :
    (determineNextStepObj intentState).stage = "sales_exploration" ∧
    (determineNextStepObj intentState).next_agent = .str "sales_agent" :=
  (stage_transition_table intentState).2.1 rfl

/-- C5: the sanction-trigger readiness predicate returns true exactly when
no sanction_letter_id is set, verification_status.verified and
income_proof_verified are truthy, income_proof_confidence is at least 0.5,
the underwriting decision is approved or conditionally_approved, and every
required customer and loan field is truthy; moreover with confidence 0.3
it returns false even when all other conditions hold.  The hypothesis
pins the confidence entry to a numeric value c, as in every state the
system writes. -/
theorem sanction_trigger_iff (d : SnapDict) (c : ℚ)
    (hc : (dgetD (d.verification_status.getD []) "income_proof_confidence"
        (.num 0)).toNum = some c) :
    (shouldGenerateSanctionLetter d = some true ↔
      (((d.sanction_letter_id).getD .none).truthy = false ∧
       (dgetD (d.verification_status.getD []) "verified" (.bool false)).truthy = true ∧
       (dgetD (d.verification_status.getD []) "income_proof_verified"
         (.bool false)).truthy = true ∧
       1/2 ≤ c ∧
       (dgetD (d.underwriting_result.getD []) "decision" .none = .str "approved" ∨
        dgetD (d.underwriting_result.getD []) "decision" .none =
          .str "conditionally_approved") ∧
       (∀ f ∈ requiredCustomerFields,
         (dgetD (d.customer_details.getD []) f .none).truthy = true) ∧
       (∀ f ∈ requiredLoanFields,
         (dgetD (d.loan_details.getD []) f .none).truthy = true))) ∧
    (c = 3/10 → shouldGenerateSanctionLetter d = some false) := by
  constructor
  · simp only [shouldGenerateSanctionLetter, hc]
    split_ifs with h1 h2 h3 h4 h5 h6 h7
    · refine iff_of_false (by simp) ?_
      rintro ⟨hb1, -⟩
      rw [h1] at hb1
      exact absurd hb1 (by decide)
    · rw [Bool.not_eq_true'] at h2
      refine iff_of_false (by simp) ?_
      rintro ⟨-, hb2, -⟩
      rw [hb2] at h2
      exact absurd h2 (by decide)
    · rw [Bool.not_eq_true'] at h3
      refine iff_of_false (by simp) ?_
      rintro ⟨-, -, hb3, -⟩
      rw [hb3] at h3
      exact absurd h3 (by decide)
    · refine iff_of_false (by simp) ?_
      rintro ⟨-, -, -, hge, -⟩
      exact absurd h4 (not_lt.mpr hge)
    · rw [Bool.not_eq_true'] at h5
      rw [Bool.or_eq_false_iff] at h5
      rw [beq_eq_false_iff_ne, beq_eq_false_iff_ne] at h5
      refine iff_of_false (by simp) ?_
      rintro ⟨-, -, -, -, hdec, -⟩
      rcases hdec with h | h
      · exact h5.1 h
      · exact h5.2 h
    · rw [List.any_eq_true] at h6
      obtain ⟨f, hf, hff⟩ := h6
      rw [Bool.not_eq_true'] at hff
      refine iff_of_false (by simp) ?_
      rintro ⟨-, -, -, -, -, hall, -⟩
      rw [hall f hf] at hff
      exact absurd hff (by decide)
    · rw [List.any_eq_true] at h7
      obtain ⟨f, hf, hff⟩ := h7
      rw [Bool.not_eq_true'] at hff
      refine iff_of_false (by simp) ?_
      rintro ⟨-, -, -, -, -, -, hall⟩
      rw [hall f hf] at hff
      exact absurd hff (by decide)
    · refine iff_of_true rfl ⟨?_, ?_, ?_, ?_, ?_, ?_, ?_⟩
      · exact Bool.eq_false_iff.mpr h1
      · simpa using h2
      · simpa using h3
      · exact not_lt.mp h4
      · exact or_iff_not_imp_left.mpr (by simpa using h5)
      · intro f hf
        rw [List.any_eq_true] at h6
        push_neg at h6
        simpa using h6 f hf
      · intro f hf
        rw [List.any_eq_true] at h7
        push_neg at h7
        simpa using h7 f hf
  · intro h30
    subst h30
    simp only [shouldGenerateSanctionLetter, hc]
    split_ifs with g1 g2 g3 g4 g5 g6 g7 <;>
      first
        | rfl
        | exact absurd (by norm_num : (3 : ℚ)/10 < 1/2) g4

/-- Witness for sanction_trigger_iff: a concrete snapshot meeting every
condition makes the predicate return true. -/
theorem sanction_trigger_iff_witness :
    shouldGenerateSanctionLetter triggerReady = some true := by
  refine (sanction_trigger_iff triggerReady (7/10) rfl).1.mpr
    ⟨rfl, rfl, rfl, by norm_num, Or.inl rfl, ?_, ?_⟩
  · intro f hf
    simp only [requiredCustomerFields, List.mem_cons, List.not_mem_nil,
      or_false] at hf
    rcases hf with rfl | rfl | rfl | rfl | rfl | rfl | rfl | rfl <;> rfl
  · intro f hf
    simp only [requiredLoanFields, List.mem_cons, List.not_mem_nil,
      or_false] at hf
    rcases hf with rfl | rfl | rfl | rfl | rfl <;>
      simp [triggerReady, dgetD, dget, PyVal.truthy]

/-! ## Merge-step projection lemmas -/

theorem mergeDocumentUploads_messages (s : MState) (d : SnapDict) :
    (mergeDocumentUploads s d).messages = s.messages := by
  unfold mergeDocumentUploads; cases d.document_uploads <;> rfl

theorem mergeIncomeProofVerification_messages (s : MState) (d : SnapDict) :
    (mergeIncomeProofVerification s d).messages = s.messages := by
  unfold mergeIncomeProofVerification; cases d.income_proof_verification <;> rfl

theorem mergeCustomerDetails_messages (s : MState) (d : SnapDict) :
    (mergeCustomerDetails s d).messages = s.messages := by
  unfold mergeCustomerDetails; cases d.customer_details <;> rfl

theorem mergeLoanDetails_messages (s : MState) (d : SnapDict) :
    (mergeLoanDetails s d).messages = s.messages := by
  unfold mergeLoanDetails; cases d.loan_details <;> rfl

theorem mergeExtractedInfo_messages (s : MState) (d : SnapDict) :
    (mergeExtractedInfo s d).messages = s.messages := by
  unfold mergeExtractedInfo; cases d.extracted_info <;> rfl

theorem mergeConversationStage_messages (s : MState) (d : SnapDict) :
    (mergeConversationStage s d).messages = s.messages := by
  unfold mergeConversationStage; cases d.conversation_stage <;> rfl

theorem mergeDecision_messages (s : MState) (d : SnapDict) :
    (mergeDecision s d).messages = s.messages := by
  unfold mergeDecision; cases d.decision <;> rfl

theorem mergeVerificationStatus_messages (s : MState) (d : SnapDict) :
    (mergeVerificationStatus s d).messages = s.messages := by
  unfold mergeVerificationStatus; cases d.verification_status <;> rfl

theorem mergeUnderwritingResult_messages (s : MState) (d : SnapDict) :
    (mergeUnderwritingResult s d).messages = s.messages := by
  unfold mergeUnderwritingResult; cases d.underwriting_result <;> rfl

theorem mergeDocumentationStatus_messages (s : MState) (d : SnapDict) :
    (mergeDocumentationStatus s d).messages = s.messages := by
  unfold mergeDocumentationStatus; cases d.documentation_status <;> rfl

theorem mergeSanctionLetterId_messages (s : MState) (d : SnapDict) :
    (mergeSanctionLetterId s d).messages = s.messages := by
  unfold mergeSanctionLetterId
  cases d.sanction_letter_id with
  | none => rfl
  | some sl => cases s.documentation_status <;> rfl

theorem mergeLastUpdated_messages (s : MState) (d : SnapDict) :
    (mergeLastUpdated s d).messages = s.messages := by
  unfold mergeLastUpdated; cases d.last_updated <;> rfl

theorem mergeIncomeProofVerification_document_uploads (s : MState) (d : SnapDict) :
    (mergeIncomeProofVerification s d).document_uploads = s.document_uploads := by
  unfold mergeIncomeProofVerification; cases d.income_proof_verification <;> rfl

theorem mergeCustomerDetails_document_uploads (s : MState) (d : SnapDict) :
    (mergeCustomerDetails s d).document_uploads = s.document_uploads := by
  unfold mergeCustomerDetails; cases d.customer_details <;> rfl

theorem mergeLoanDetails_document_uploads (s : MState) (d : SnapDict) :
    (mergeLoanDetails s d).document_uploads = s.document_uploads := by
  unfold mergeLoanDetails; cases d.loan_details <;> rfl

theorem mergeExtractedInfo_document_uploads (s : MState) (d : SnapDict) :
    (mergeExtractedInfo s d).document_uploads = s.document_uploads := by
  unfold mergeExtractedInfo; cases d.extracted_info <;> rfl

theorem mergeMessages_document_uploads (now : String) (s : MState) (d : SnapDict) :
    (mergeMessages now s d).document_uploads = s.document_uploads := by
  unfold mergeMessages
  cases d.messages with
  | none => rfl
  | some ms =>
      by_cases h : s.messages.length < ms.length
      · simp only [if_pos h]
      · simp only [if_neg h]

theorem mergeConversationStage_document_uploads (s : MState) (d : SnapDict) :
    (mergeConversationStage s d).document_uploads = s.document_uploads := by
  unfold mergeConversationStage; cases d.conversation_stage <;> rfl

theorem mergeDecision_document_uploads (s : MState) (d : SnapDict) :
    (mergeDecision s d).document_uploads = s.document_uploads := by
  unfold mergeDecision; cases d.decision <;> rfl

theorem mergeVerificationStatus_document_uploads (s : MState) (d : SnapDict) :
    (mergeVerificationStatus s d).document_uploads = s.document_uploads := by
  unfold mergeVerificationStatus; cases d.verification_status <;> rfl

theorem mergeUnderwritingResult_document_uploads (s : MState) (d : SnapDict) :
    (mergeUnderwritingResult s d).document_uploads = s.document_uploads := by
  unfold mergeUnderwritingResult; cases d.underwriting_result <;> rfl

theorem mergeDocumentationStatus_document_uploads (s : MState) (d : SnapDict) :
    (mergeDocumentationStatus s d).document_uploads = s.document_uploads := by
  unfold mergeDocumentationStatus; cases d.documentation_status <;> rfl

theorem mergeSanctionLetterId_document_uploads (s : MState) (d : SnapDict) :
    (mergeSanctionLetterId s d).document_uploads = s.document_uploads := by
  unfold mergeSanctionLetterId
  cases d.sanction_letter_id with
  | none => rfl
  | some sl => cases s.documentation_status <;> rfl

theorem mergeLastUpdated_document_uploads (s : MState) (d : SnapDict) :
    (mergeLastUpdated s d).document_uploads = s.document_uploads := by
  unfold mergeLastUpdated; cases d.last_updated <;> rfl

theorem mergeDocumentUploads_eq (s : MState) (d : SnapDict) (du : Dict DictV)
    (h : d.document_uploads = some du) :
    (mergeDocumentUploads s d).document_uploads =
      some (du.foldl (fun acc kv => dset acc kv.1 kv.2)
        (s.document_uploads.getD [])) := by
  unfold mergeDocumentUploads
  rw [h]

/-! ## Fold-presence lemmas -/

theorem dget_isSome_dset {α : Type} (d : Dict α) (k k2 : String) (v : α)
    (h : (dget d k).isSome) : (dget (dset d k2 v) k).isSome := by
  by_cases he : k = k2
  · subst he
    rw [dget_dset_self]
    rfl
  · rw [dget_dset_ne d k2 k v he]
    exact h

theorem dget_isSome_foldl_dset {α : Type} (l : List (String × α)) (base : Dict α)
    (k : String) (h : (dget base k).isSome) :
    (dget (l.foldl (fun acc kv => dset acc kv.1 kv.2) base) k).isSome := by
  induction l generalizing base with
  | nil => exact h
  | cons hd tl ih => exact ih (dset base hd.1 hd.2) (dget_isSome_dset _ _ _ _ h)

theorem dget_isSome_foldl_of_mem {α : Type} (l : List (String × α)) (base : Dict α)
    (kv : String × α) (h : kv ∈ l) :
    (dget (l.foldl (fun acc kv => dset acc kv.1 kv.2) base) kv.1).isSome := by
  induction l generalizing base with
  | nil => cases h
  | cons hd tl ih =>
      rcases List.mem_cons.mp h with he | hm
      · subst he
        exact dget_isSome_foldl_dset tl _ _ (by rw [dget_dset_self]; rfl)
      · exact ih (dset base hd.1 hd.2) hm

/-- C1 (amended): merging a snapshot E into an in-memory state S appends
exactly the suffix beyond S's message count when E has more messages, but
when E has at most as many messages as S it replaces S.messages wholesale
with E's list (so the merge can reduce the length when E has fewer); when
E carries no messages key, S.messages is untouched; and every key present
in E's document_uploads appears in the merged state's document_uploads. -/
theorem merge_policy_amended (now : String) (s : MState) (d : SnapDict) :
    (∀ ms, d.messages = some ms →
      (s.messages.length < ms.length →
        (updateStateFromDict now s d).messages =
          s.messages ++ ((ms.drop s.messages.length).map fun m =>
            { role := m.role, content := m.content, timestamp := some now })) ∧
      (ms.length ≤ s.messages.length →
        (updateStateFromDict now s d).messages = ms)) ∧
    (d.messages = Option.none →
      (updateStateFromDict now s d).messages = s.messages) ∧
    (∀ du, d.document_uploads = some du → ∀ kv ∈ du,
      (dget ((updateStateFromDict now s d).document_uploads.getD []) kv.1).isSome = true) := by
  have hpremsg :
      (mergeExtractedInfo (mergeLoanDetails (mergeCustomerDetails
        (mergeIncomeProofVerification (mergeDocumentUploads s d) d) d) d) d).messages =
      s.messages := by
    rw [mergeExtractedInfo_messages, mergeLoanDetails_messages,
      mergeCustomerDetails_messages, mergeIncomeProofVerification_messages,
      mergeDocumentUploads_messages]
  refine ⟨?_, ?_, ?_⟩
  · intro ms hm
    constructor
    · intro hlt
      show (mergeLastUpdated _ d).messages = _
      rw [mergeLastUpdated_messages, mergeSanctionLetterId_messages,
        mergeDocumentationStatus_messages, mergeUnderwritingResult_messages,
        mergeVerificationStatus_messages, mergeDecision_messages,
        mergeConversationStage_messages]
      unfold mergeMessages
      rw [hm]
      simp only [hpremsg]
      rw [if_pos hlt]
    · intro hle
      show (mergeLastUpdated _ d).messages = _
      rw [mergeLastUpdated_messages, mergeSanctionLetterId_messages,
        mergeDocumentationStatus_messages, mergeUnderwritingResult_messages,
        mergeVerificationStatus_messages, mergeDecision_messages,
        mergeConversationStage_messages]
      unfold mergeMessages
      rw [hm]
      simp only [hpremsg]
      rw [if_neg (not_lt.mpr hle)]
  · intro hm
    show (mergeLastUpdated _ d).messages = _
    rw [mergeLastUpdated_messages, mergeSanctionLetterId_messages,
      mergeDocumentationStatus_messages, mergeUnderwritingResult_messages,
      mergeVerificationStatus_messages, mergeDecision_messages,
      mergeConversationStage_messages]
    unfold mergeMessages
    rw [hm]
    exact hpremsg
  · intro du hdu kv hkv
    show (dget ((mergeLastUpdated _ d).document_uploads.getD []) kv.1).isSome = true
    rw [mergeLastUpdated_document_uploads, mergeSanctionLetterId_document_uploads,
      mergeDocumentationStatus_document_uploads, mergeUnderwritingResult_document_uploads,
      mergeVerificationStatus_document_uploads, mergeDecision_document_uploads,
      mergeConversationStage_document_uploads, mergeMessages_document_uploads,
      mergeExtractedInfo_document_uploads, mergeLoanDetails_document_uploads,
      mergeCustomerDetails_document_uploads, mergeIncomeProofVerification_document_uploads,
      mergeDocumentUploads_eq s d du hdu]
    simp only [Option.getD_some]
    exact dget_isSome_foldl_of_mem du _ kv hkv

/-- C1 counterexample: an in-memory state with two messages merged with a
loaded snapshot holding only one message ends up with one message — the
merge truncates S.messages, contradicting the claim that a snapshot with
at most as many messages leaves all of S's messages in place. -/
theorem merge_truncates_cex :
    (updateStateFromDict "t3" mergeS mergeShort).messages.length <
      mergeS.messages.length := by
  decide

/-- Witness for merge_policy_amended: a longer snapshot appends exactly
the new suffix (with a fresh timestamp) and a snapshot document upload
appears in the merged state. -/
theorem merge_policy_amended_witness :
    (updateStateFromDict "t3" mergeS mergeLong).messages =
      mergeS.messages ++
        [{ role := "assistant", content := "verified your documents",
           timestamp := some "t3" }] ∧
    (dget ((updateStateFromDict "t3" mergeS mergeLong).document_uploads.getD [])
      "doc-1").isSome = true := by
  constructor
  · have h := ((merge_policy_amended "t3" mergeS mergeLong).1 _ rfl).1 (by decide)
    rw [h]
    rfl
  · exact (merge_policy_amended "t3" mergeS mergeLong).2.2 _ rfl
      ("doc-1", [("type", .str "salary_slip")]) (by decide)

/-! ## Document-verifier lemmas -/

/-- Appending different suffixes to the same string yields different
strings. -/
theorem append_right_ne (t : String) {a b : String} (h : a ≠ b) :
    t ++ a ≠ t ++ b := by
  intro he
  apply h
  have h1 : t.data ++ a.data = t.data ++ b.data := by
    have h2 := congrArg String.data he
    simpa [String.data_append] using h2
  have h3 := List.append_cancel_left h1
  cases a with
  | mk da =>
      cases b with
      | mk db => exact congrArg String.mk h3

/-- A key absent from a dict differs from every stored key. -/
theorem dget_eq_none_forall {α : Type} (l : Dict α) (k : String)
    (h : dget l k = Option.none) : ∀ kv ∈ l, kv.1 ≠ k := by
  induction l with
  | nil =>
      intro kv hkv
      cases hkv
  | cons hd tl ih =>
      intro kv hkv
      by_cases he : hd.1 = k
      · simp [dget, he] at h
      · rcases List.mem_cons.mp hkv with rfl | hm
        · exact he
        · have h2 : dget tl k = Option.none := by simpa [dget, he] using h
          exact ih h2 kv hm

theorem processDocStep_not_ready (score : String → ℚ) (now : String)
    (cd : DictV) (acc : ProcAcc) (t : String) (h : docReady cd t = false) :
    processDocStep score now cd acc t = acc := by
  unfold processDocStep
  rw [h]
  rfl

theorem processDocStep_ready (score : String → ℚ) (now : String)
    (cd : DictV) (acc : ProcAcc) (t : String) (h : docReady cd t = true) :
    processDocStep score now cd acc t =
      { results := dset (dset (dset (dset acc.results
            (t ++ "_verified") (.bool (1/2 ≤ score t)))
            (t ++ "_confidence") (.num (score t)))
            (t ++ "_verification_time") (.str now))
            (t ++ "_status") (.str (if 1/2 ≤ score t then "approved" else "rejected")),
        overall := acc.overall + score t,
        processed := acc.processed + 1,
        modified := true } := by
  unfold processDocStep
  rw [h]
  rfl

theorem processDocStep_dget_pres (score : String → ℚ) (now : String)
    (cd : DictV) (acc : ProcAcc) (t k : String)
    (h : docReady cd t = false ∨
      ∀ sfx ∈ ["_verified", "_confidence", "_verification_time", "_status"],
        t ++ sfx ≠ k) :
    dget (processDocStep score now cd acc t).results k = dget acc.results k := by
  cases hr : docReady cd t with
  | false => rw [processDocStep_not_ready score now cd acc t hr]
  | true =>
      rcases h with h | h
      · rw [h] at hr
        cases hr
      · rw [processDocStep_ready score now cd acc t hr]
        dsimp only
        rw [dget_dset_ne _ _ _ _ (Ne.symm (h "_status" (by simp))),
          dget_dset_ne _ _ _ _ (Ne.symm (h "_verification_time" (by simp))),
          dget_dset_ne _ _ _ _ (Ne.symm (h "_confidence" (by simp))),
          dget_dset_ne _ _ _ _ (Ne.symm (h "_verified" (by simp)))]

theorem foldl_dget_pres (score : String → ℚ) (now : String) (cd : DictV)
    (l : List String) (acc : ProcAcc) (k : String)
    (h : ∀ t ∈ l, docReady cd t = false ∨
      ∀ sfx ∈ ["_verified", "_confidence", "_verification_time", "_status"],
        t ++ sfx ≠ k) :
    dget ((l.foldl (processDocStep score now cd) acc).results) k =
      dget acc.results k := by
  induction l generalizing acc with
  | nil => rfl
  | cons hd tl ih =>
      rw [List.foldl_cons]
      rw [ih _ (fun t ht => h t (List.mem_cons_of_mem hd ht))]
      exact processDocStep_dget_pres score now cd acc hd k
        (h hd (List.mem_cons_self hd tl))

theorem processDocStep_dget_write (score : String → ℚ) (now : String)
    (cd : DictV) (acc : ProcAcc) (t : String) (h : docReady cd t = true) :
    dget (processDocStep score now cd acc t).results (t ++ "_verified") =
      some (.bool (1/2 ≤ score t)) ∧
    dget (processDocStep score now cd acc t).results (t ++ "_confidence") =
      some (.num (score t)) ∧
    dget (processDocStep score now cd acc t).results (t ++ "_status") =
      some (.str (if 1/2 ≤ score t then "approved" else "rejected")) := by
  rw [processDocStep_ready score now cd acc t h]
  dsimp only
  refine ⟨?_, ?_, ?_⟩
  · rw [dget_dset_ne _ _ _ _ (append_right_ne t (by decide)),
      dget_dset_ne _ _ _ _ (append_right_ne t (by decide)),
      dget_dset_ne _ _ _ _ (append_right_ne t (by decide)),
      dget_dset_self]
  · rw [dget_dset_ne _ _ _ _ (append_right_ne t (by decide)),
      dget_dset_ne _ _ _ _ (append_right_ne t (by decide)),
      dget_dset_self]
  · rw [dget_dset_self]

theorem foldl_dget_write (score : String → ℚ) (now : String) (cd : DictV)
    (l : List String) (acc : ProcAcc) (t k : String) (v : PyVal)
    (ht : t ∈ l)
    (hwrite : ∀ acc2 : ProcAcc,
      dget (processDocStep score now cd acc2 t).results k = some v)
    (hpres : ∀ t2 ∈ l, t2 ≠ t →
      docReady cd t2 = false ∨
      ∀ sfx ∈ ["_verified", "_confidence", "_verification_time", "_status"],
        t2 ++ sfx ≠ k) :
    dget ((l.foldl (processDocStep score now cd) acc).results) k = some v := by
  induction l generalizing acc with
  | nil => cases ht
  | cons hd tl ih =>
      rw [List.foldl_cons]
      by_cases htl : t ∈ tl
      · exact ih _ htl (fun t2 h2 hne => hpres t2 (List.mem_cons_of_mem hd h2) hne)
      · have hhd : hd = t := by
          rcases List.mem_cons.mp ht with he | he
          · exact he.symm
          · exact absurd he htl
        subst hhd
        rw [foldl_dget_pres score now cd tl _ k
          (fun t2 h2 => hpres t2 (List.mem_cons_of_mem hd h2)
            (fun he => htl (he ▸ h2)))]
        exact hwrite acc

theorem processDocStep_processed_le (score : String → ℚ) (now : String)
    (cd : DictV) (acc : ProcAcc) (t : String) :
    acc.processed ≤ (processDocStep score now cd acc t).processed := by
  cases hr : docReady cd t with
  | false => rw [processDocStep_not_ready score now cd acc t hr]
  | true =>
      rw [processDocStep_ready score now cd acc t hr]
      exact Nat.le_succ _

theorem foldl_processed_le (score : String → ℚ) (now : String) (cd : DictV)
    (l : List String) (acc : ProcAcc) :
    acc.processed ≤ ((l.foldl (processDocStep score now cd) acc)).processed := by
  induction l generalizing acc with
  | nil => exact le_refl _
  | cons hd tl ih =>
      rw [List.foldl_cons]
      exact le_trans (processDocStep_processed_le score now cd acc hd) (ih _)

theorem foldl_processed_pos (score : String → ℚ) (now : String) (cd : DictV)
    (l : List String) (acc : ProcAcc) (t : String)
    (ht : t ∈ l) (h : docReady cd t = true) :
    0 < ((l.foldl (processDocStep score now cd) acc)).processed := by
  induction l generalizing acc with
  | nil => cases ht
  | cons hd tl ih =>
      rw [List.foldl_cons]
      by_cases htl : t ∈ tl
      · exact ih _ htl
      · have hhd : hd = t := by
          rcases List.mem_cons.mp ht with he | he
          · exact he.symm
          · exact absurd he htl
        rw [hhd]
        have h1 : 0 < (processDocStep score now cd acc t).processed := by
          rw [processDocStep_ready score now cd acc t h]
          exact Nat.succ_pos _
        exact lt_of_lt_of_le h1 (foldl_processed_le score now cd tl _)

theorem processDocStep_nodup (score : String → ℚ) (now : String)
    (cd : DictV) (acc : ProcAcc) (t : String)
    (h : (acc.results.map Prod.fst).Nodup) :
    (((processDocStep score now cd acc t).results).map Prod.fst).Nodup := by
  cases hr : docReady cd t with
  | false =>
      rw [processDocStep_not_ready score now cd acc t hr]
      exact h
  | true =>
      rw [processDocStep_ready score now cd acc t hr]
      exact dset_nodup_keys _ _ _ (dset_nodup_keys _ _ _
        (dset_nodup_keys _ _ _ (dset_nodup_keys _ _ _ h)))

theorem foldl_nodup (score : String → ℚ) (now : String) (cd : DictV)
    (l : List String) (acc : ProcAcc)
    (h : (acc.results.map Prod.fst).Nodup) :
    (((l.foldl (processDocStep score now cd) acc)).results.map Prod.fst).Nodup := by
  induction l generalizing acc with
  | nil => exact h
  | cons hd tl ih =>
      rw [List.foldl_cons]
      exact ih _ (processDocStep_nodup score now cd acc hd h)

theorem foldl_all_skip (score : String → ℚ) (now : String) (cd : DictV)
    (l : List String) (acc : ProcAcc)
    (h : ∀ t ∈ l, docReady cd t = false) :
    l.foldl (processDocStep score now cd) acc = acc := by
  induction l generalizing acc with
  | nil => rfl
  | cons hd tl ih =>
      rw [List.foldl_cons,
        processDocStep_not_ready score now cd acc hd (h hd (List.mem_cons_self hd tl))]
      exact ih _ (fun t ht => h t (List.mem_cons_of_mem hd ht))

/-- Ground fact: the four result keys of any document type never collide
with any query key of a different document type. -/
theorem documentTypes_key_disjoint :
    ∀ t ∈ documentTypes, ∀ t2 ∈ documentTypes, t2 ≠ t →
      ∀ sfx ∈ ["_verified", "_confidence", "_verification_time", "_status"],
      ∀ sfx2 ∈ ["_verified", "_confidence", "_verification_time", "_status",
        "_uploaded"],
        t2 ++ sfx ≠ t ++ sfx2 := by decide

/-- Ground fact: no per-type key collides with the three aggregate keys. -/
theorem documentTypes_key_not_aggregate :
    ∀ t ∈ documentTypes,
      ∀ sfx ∈ ["_verified", "_confidence", "_verification_time", "_status",
        "_uploaded"],
        t ++ sfx ≠ "income_proof_confidence" ∧ t ++ sfx ≠ "income_proof" ∧
        t ++ sfx ≠ "income_proof_verification_time" := by decide

theorem processDocuments_cd_pos (score : String → ℚ) (fmt : ℚ → String)
    (now : String) (d : SnapDict)
    (hp : 0 < (processResults score now (d.customer_details.getD [])).processed) :
    ((processDocuments score fmt now d).1.customer_details).getD [] =
      dupdate (d.customer_details.getD [])
        (dset (dset (dset
          (processResults score now (d.customer_details.getD [])).results
          "income_proof_confidence"
          (.num ((processResults score now (d.customer_details.getD [])).overall /
            ((processResults score now (d.customer_details.getD [])).processed : ℚ))))
          "income_proof"
          (.bool (1/2 ≤ (processResults score now (d.customer_details.getD [])).overall /
            ((processResults score now (d.customer_details.getD [])).processed : ℚ))))
          "income_proof_verification_time" (.str now)) := by
  simp only [processDocuments]
  rw [if_pos hp]
  rfl

theorem processDocuments_cd_neg (score : String → ℚ) (fmt : ℚ → String)
    (now : String) (d : SnapDict)
    (hp : ¬ 0 < (processResults score now (d.customer_details.getD [])).processed) :
    ((processDocuments score fmt now d).1.customer_details).getD [] =
      dupdate (d.customer_details.getD [])
        (processResults score now (d.customer_details.getD [])).results := by
  simp only [processDocuments]
  rw [if_neg hp]
  rfl

theorem processDocuments_modified (score : String → ℚ) (fmt : ℚ → String)
    (now : String) (d : SnapDict) :
    (processDocuments score fmt now d).2 =
      (processResults score now (d.customer_details.getD [])).modified := by
  simp only [processDocuments]
  split_ifs <;> rfl

theorem processResults_nodup (score : String → ℚ) (now : String) (cd : DictV) :
    (((processResults score now cd).results).map Prod.fst).Nodup := by
  unfold processResults
  exact foldl_nodup score now cd documentTypes
    { results := [], overall := 0, processed := 0, modified := false }
    List.nodup_nil

theorem processDocuments_cd_dget (score : String → ℚ) (fmt : ℚ → String)
    (now : String) (d : SnapDict) (cd : DictV) (k : String) (v : PyVal)
    (hcd : d.customer_details = some cd)
    (hk : dget ((processResults score now cd).results) k = some v)
    (haggr : k ≠ "income_proof_confidence" ∧ k ≠ "income_proof" ∧
      k ≠ "income_proof_verification_time") :
    dget (((processDocuments score fmt now d).1.customer_details).getD []) k =
      some v := by
  have hcd2 : d.customer_details.getD [] = cd := by rw [hcd]; rfl
  by_cases hp : 0 < (processResults score now cd).processed
  · rw [processDocuments_cd_pos score fmt now d (by rw [hcd2]; exact hp), hcd2]
    apply dget_dupdate_of_dget
    · exact dset_nodup_keys _ _ _ (dset_nodup_keys _ _ _ (dset_nodup_keys _ _ _
        (processResults_nodup score now cd)))
    · rw [dget_dset_ne _ _ _ _ haggr.2.2, dget_dset_ne _ _ _ _ haggr.2.1,
        dget_dset_ne _ _ _ _ haggr.1]
      exact hk
  · rw [processDocuments_cd_neg score fmt now d (by rw [hcd2]; exact hp), hcd2]
    apply dget_dupdate_of_dget
    · exact processResults_nodup score now cd
    · exact hk

theorem processDocuments_cd_pres (score : String → ℚ) (fmt : ℚ → String)
    (now : String) (d : SnapDict) (cd : DictV) (k : String)
    (hcd : d.customer_details = some cd)
    (hk : dget ((processResults score now cd).results) k = Option.none)
    (haggr : k ≠ "income_proof_confidence" ∧ k ≠ "income_proof" ∧
      k ≠ "income_proof_verification_time") :
    dget (((processDocuments score fmt now d).1.customer_details).getD []) k =
      dget cd k := by
  have hcd2 : d.customer_details.getD [] = cd := by rw [hcd]; rfl
  by_cases hp : 0 < (processResults score now cd).processed
  · rw [processDocuments_cd_pos score fmt now d (by rw [hcd2]; exact hp), hcd2]
    rw [dget_dupdate_notmem]
    apply dget_eq_none_forall
    rw [dget_dset_ne _ _ _ _ haggr.2.2, dget_dset_ne _ _ _ _ haggr.2.1,
      dget_dset_ne _ _ _ _ haggr.1]
    exact hk
  · rw [processDocuments_cd_neg score fmt now d (by rw [hcd2]; exact hp), hcd2]
    rw [dget_dupdate_notmem]
    exact dget_eq_none_forall _ _ hk

/-- The updated snapshot always carries an explicit customer_details
dict. -/
theorem processDocuments_cd_isSome (score : String → ℚ) (fmt : ℚ → String)
    (now : String) (d : SnapDict) :
    (processDocuments score fmt now d).1.customer_details =
      some (((processDocuments score fmt now d).1.customer_details).getD []) := by
  simp only [processDocuments]
  split_ifs <;> rfl

/-- A SnapDict whose customer_details is rewritten to its own value is
itself. -/
theorem snapdict_eta_cd (d : SnapDict) (cd : DictV)
    (hcd : d.customer_details = some cd) :
    ({ d with customer_details := some cd } : SnapDict) = d := by
  obtain ⟨f1, f2, f3, f4, f5, f6, f7, f8, f9, f10, f11, f12, f13⟩ := d
  subst hcd
  rfl

/-- C8: for every document type processed by the document verifier, the
verified flag assigned equals the comparison confidence at least 0.5 — a
confidence of exactly 0.5 yields verified true and status approved, not
rejected — and the confidence _analyze_document assigns (base plus
modifier, clamped) always lies in the interval from 0 to 1. -/
theorem document_confidence_boundary (score : String → ℚ) (fmt : ℚ → String)
    (now : String) (d : SnapDict) (cd : DictV) (t : String)
    (hcd : d.customer_details = some cd)
    (ht : t ∈ documentTypes)
    (hup : (dgetD cd (t ++ "_uploaded") (.bool false)).truthy = true)
    (hver : (dgetD cd (t ++ "_verified") (.bool false)).truthy = false) :
    (dget (((processDocuments score fmt now d).1.customer_details).getD [])
        (t ++ "_verified") = some (.bool (1/2 ≤ score t)) ∧
     dget (((processDocuments score fmt now d).1.customer_details).getD [])
        (t ++ "_confidence") = some (.num (score t)) ∧
     dget (((processDocuments score fmt now d).1.customer_details).getD [])
        (t ++ "_status") =
       some (.str (if 1/2 ≤ score t then "approved" else "rejected"))) ∧
    (∀ base modifier : ℚ,
      0 ≤ analyzeDocument base modifier ∧ analyzeDocument base modifier ≤ 1) := by
  have hready : docReady cd t = true := by
    unfold docReady
    rw [hup, hver]
    rfl
  have hpres : ∀ sfx2 ∈ ["_verified", "_confidence", "_verification_time", "_status",
      "_uploaded"], ∀ t2 ∈ documentTypes, t2 ≠ t →
      docReady cd t2 = false ∨
      ∀ sfx ∈ ["_verified", "_confidence", "_verification_time", "_status"],
        t2 ++ sfx ≠ t ++ sfx2 := by
    intro sfx2 hsfx2 t2 h2 hne
    exact Or.inr (fun sfx hsfx =>
      documentTypes_key_disjoint t ht t2 h2 hne sfx hsfx sfx2 hsfx2)
  constructor
  · refine ⟨?_, ?_, ?_⟩
    · apply processDocuments_cd_dget score fmt now d cd _ _ hcd
      · unfold processResults
        apply foldl_dget_write score now cd documentTypes _ t _ _ ht
        · intro acc2
          exact (processDocStep_dget_write score now cd acc2 t hready).1
        · exact hpres "_verified" (by simp)
      · exact documentTypes_key_not_aggregate t ht "_verified" (by simp)
    · apply processDocuments_cd_dget score fmt now d cd _ _ hcd
      · unfold processResults
        apply foldl_dget_write score now cd documentTypes _ t _ _ ht
        · intro acc2
          exact (processDocStep_dget_write score now cd acc2 t hready).2.1
        · exact hpres "_confidence" (by simp)
      · exact documentTypes_key_not_aggregate t ht "_confidence" (by simp)
    · apply processDocuments_cd_dget score fmt now d cd _ _ hcd
      · unfold processResults
        apply foldl_dget_write score now cd documentTypes _ t _ _ ht
        · intro acc2
          exact (processDocStep_dget_write score now cd acc2 t hready).2.2
        · exact hpres "_status" (by simp)
      · exact documentTypes_key_not_aggregate t ht "_status" (by simp)
  · intro base modifier
    unfold analyzeDocument
    exact ⟨le_min (le_max_right _ _) zero_le_one, min_le_right _ _⟩

/-- Witness for document_confidence_boundary: a salary slip scored exactly
0.5 comes out verified with status approved. -/
theorem document_confidence_boundary_witness :
    dget (((processDocuments halfScore fmt2 "t0" uploadedSnap).1.customer_details).getD [])
      "salary_slip_verified" = some (.bool true) ∧
    dget (((processDocuments halfScore fmt2 "t0" uploadedSnap).1.customer_details).getD [])
      "salary_slip_status" = some (.str "approved") := by
  have h := document_confidence_boundary halfScore fmt2 "t0" uploadedSnap
    [("salary_slip_uploaded", .bool true)] "salary_slip" rfl (by decide)
    (by decide) (by decide)
  have h1 : dget (((processDocuments halfScore fmt2 "t0" uploadedSnap).1.customer_details).getD [])
      "salary_slip_verified" = some (.bool (1/2 ≤ halfScore "salary_slip")) := h.1.1
  have h3 : dget (((processDocuments halfScore fmt2 "t0" uploadedSnap).1.customer_details).getD [])
      "salary_slip_status" =
      some (.str (if 1/2 ≤ halfScore "salary_slip" then "approved" else "rejected")) := h.1.2.2
  constructor
  · rw [h1]
    simp only [Option.some.injEq, PyVal.bool.injEq, halfScore, decide_eq_true_eq]
    exact le_refl _
  · rw [h3]
    simp only [Option.some.injEq, PyVal.str.injEq, halfScore]
    rw [if_pos (le_refl ((1 : ℚ)/2))]

/-- C7 (amended): a document type already marked verified is never
re-scored — the mutation leaves all five of its customer_details keys
(uploaded, verified, confidence, verification_time, status) unchanged —
and when every document type fails the uploaded-and-not-verified
condition the readiness predicate evaluates false and the mutation does
nothing at all; however a document scored below 0.5 is marked verified
false, so the readiness predicate evaluates true again on the mutated
state (shown by the separate counterexample). -/
theorem verified_documents_not_rescored (score : String → ℚ) (fmt : ℚ → String)
    (now : String) (d : SnapDict) (cd : DictV)
    (hcd : d.customer_details = some cd) :
    (∀ t ∈ documentTypes,
      (dgetD cd (t ++ "_verified") (.bool false)).truthy = true →
      ∀ sfx ∈ ["_verified", "_confidence", "_verification_time", "_status",
        "_uploaded"],
        dget (((processDocuments score fmt now d).1.customer_details).getD [])
          (t ++ sfx) = dget cd (t ++ sfx)) ∧
    ((∀ t ∈ documentTypes, docReady cd t = false) →
      hasUnverifiedDocuments d = false ∧
      processDocuments score fmt now d = (d, false)) := by
  constructor
  · intro t ht hv sfx hsfx
    apply processDocuments_cd_pres score fmt now d cd _ hcd
    · have hsteps : ∀ t2 ∈ documentTypes,
          docReady cd t2 = false ∨
          ∀ sfx2 ∈ ["_verified", "_confidence", "_verification_time", "_status"],
            t2 ++ sfx2 ≠ t ++ sfx := by
        intro t2 h2
        by_cases he : t2 = t
        · subst he
          left
          unfold docReady
          rw [hv]
          simp
        · right
          intro sfx2 hsfx2
          exact documentTypes_key_disjoint t ht t2 h2 he sfx2 hsfx2 sfx hsfx
      unfold processResults
      rw [foldl_dget_pres score now cd documentTypes _ _ hsteps]
      rfl
    · exact documentTypes_key_not_aggregate t ht sfx hsfx
  · intro hall
    have hskip : processResults score now cd =
        { results := [], overall := 0, processed := 0, modified := false } := by
      unfold processResults
      exact foldl_all_skip score now cd documentTypes _ hall
    have hcd2 : d.customer_details.getD [] = cd := by rw [hcd]; rfl
    constructor
    · unfold hasUnverifiedDocuments
      rw [hcd]
      simp only [List.any_eq_false]
      intro t ht
      simp [hall t ht]
    · simp only [processDocuments]
      rw [hcd2, hskip]
      split_ifs with hp
      all_goals first
        | exact absurd hp (lt_irrefl 0)
        | (rw [Prod.ext_iff]; exact ⟨snapdict_eta_cd d cd hcd, rfl⟩)

/-- Witness for verified_documents_not_rescored: with the only uploaded
salary slip already verified at confidence 0.9, the mutation changes
nothing: the confidence entry is untouched, the predicate is false and
the snapshot is returned unmodified. -/
theorem verified_documents_not_rescored_witness :
    dget (((processDocuments lowScore fmt2 "t1" verifiedSnap).1.customer_details).getD [])
      "salary_slip_confidence" =
      dget [("salary_slip_uploaded", .bool true),
        ("salary_slip_verified", .bool true),
        ("salary_slip_confidence", .num (9/10))] "salary_slip_confidence" ∧
    hasUnverifiedDocuments verifiedSnap = false ∧
    processDocuments lowScore fmt2 "t1" verifiedSnap = (verifiedSnap, false) := by
  have h := verified_documents_not_rescored lowScore fmt2 "t1" verifiedSnap
    [("salary_slip_uploaded", .bool true), ("salary_slip_verified", .bool true),
     ("salary_slip_confidence", .num (9/10))] rfl
  have h2 := h.2 (by decide)
  exact ⟨h.1 "salary_slip" (by decide) (by decide) "_confidence" (by simp),
    h2.1, h2.2⟩

/-- C7 counterexample: the predicate does not evaluate false against
every state already mutated by a previous cycle — when the only uploaded
document is scored 0.3 the cycle performs a mutation (modified is true)
yet the readiness predicate evaluates true again on the mutated state,
because the document was marked verified false and will be re-scored. -/
theorem rescored_after_low_confidence_cex :
    (processDocuments lowScore fmt2 "t0" uploadedSnap).2 = true ∧
    hasUnverifiedDocuments (processDocuments lowScore fmt2 "t0" uploadedSnap).1 =
      true := by
  have hup : dget (((processDocuments lowScore fmt2 "t0" uploadedSnap).1.customer_details).getD [])
      "salary_slip_uploaded" = some (.bool true) := by
    apply processDocuments_cd_pres lowScore fmt2 "t0" uploadedSnap
      [("salary_slip_uploaded", .bool true)] _ rfl
    · unfold processResults
      rw [foldl_dget_pres lowScore "t0" _ documentTypes _ _ (by decide)]
      rfl
    · exact ⟨by decide, by decide, by decide⟩
  have hver0 : dget (((processDocuments lowScore fmt2 "t0" uploadedSnap).1.customer_details).getD [])
      "salary_slip_verified" = some (.bool (1/2 ≤ lowScore "salary_slip")) := by
    apply processDocuments_cd_dget lowScore fmt2 "t0" uploadedSnap
      [("salary_slip_uploaded", .bool true)] _ _ rfl
    · unfold processResults
      apply foldl_dget_write lowScore "t0" _ documentTypes _ "salary_slip" _ _
        (by decide)
      · intro acc2
        exact (processDocStep_dget_write lowScore "t0" _ acc2 "salary_slip"
          (by decide)).1
      · decide
    · exact ⟨by decide, by decide, by decide⟩
  rw [show (decide ((1:ℚ)/2 ≤ lowScore "salary_slip")) = false from
    decide_eq_false (by norm_num [lowScore])] at hver0
  constructor
  · rw [processDocuments_modified]
    rfl
  · show documentTypes.any (docReady
      (((processDocuments lowScore fmt2 "t0" uploadedSnap).1.customer_details).getD [])) = true
    rw [List.any_eq_true]
    refine ⟨"salary_slip", by decide, ?_⟩
    show ((dgetD (((processDocuments lowScore fmt2 "t0" uploadedSnap).1.customer_details).getD [])
        "salary_slip_uploaded" (.bool false)).truthy &&
      !(dgetD (((processDocuments lowScore fmt2 "t0" uploadedSnap).1.customer_details).getD [])
        "salary_slip_verified" (.bool false)).truthy) = true
    unfold dgetD
    rw [hup, hver0]
    rfl

end TataLoan
